import Mathlib

/-
Verification of io_export_qmap.py (Blender idTech .map exporter).

Shallow embedding: the numeric formatter, entity naming, plane emitter,
texture projection solver (Standard axis choice and full Valve path),
the per-face builder guard, the Soup/Blob vertex transforms and the
patch sampler are translated from the source into Lean definitions.
Floating point is modelled by exact arithmetic (`Rat` where the source
is algebraic, `Real` where it uses trigonometry); the host mesh layer
(bmesh) is out of scope and appears only through the data it hands the
exporter (vertices, normals, UVs, face areas).
-/

/-! ### Numeric formatter: `round` and `gridsnap`

Python's builtin `round` rounds half to even (banker's rounding).
`ExportQuakeMap.gridsnap` (source lines 362-367) maps
`round(co/grid)*grid` over the vector, and is the identity when
`grid == 0`. -/

/-- Python's builtin `round` to an integer: round half to even. -/
def pyround (x : ℚ) : ℤ :=
  if Int.fract x < 1/2 then ⌊x⌋
  else if 1/2 < Int.fract x then ⌊x⌋ + 1
  else if ⌊x⌋ % 2 = 0 then ⌊x⌋ else ⌊x⌋ + 1

/-- Python's `round(x, fp)`: round to `fp` decimal places, half to even. -/
def pyroundTo (fp : ℕ) (x : ℚ) : ℚ :=
  (pyround (x * 10 ^ fp) : ℚ) / 10 ^ fp

/-- `ExportQuakeMap.gridsnap`, source lines 362-367. -/
def gridsnap (grid : ℚ) (vector : List ℚ) : List ℚ :=
  if grid = 0 then vector
  else vector.map (fun co => (pyround (co / grid) : ℚ) * grid)

/-- Componentwise `gridsnap` on a coordinate triple (the source applies it
to 3-vectors; `mathutils` vectors iterate componentwise). -/
def gridsnap3 (grid : ℚ) (v : ℚ × ℚ × ℚ) : ℚ × ℚ × ℚ :=
  if grid = 0 then v
  else ((pyround (v.1 / grid) : ℚ) * grid,
        (pyround (v.2.1 / grid) : ℚ) * grid,
        (pyround (v.2.2 / grid) : ℚ) * grid)

lemma pyround_intCast (n : ℤ) : pyround (n : ℚ) = n := by
  unfold pyround
  rw [Int.fract_intCast, Int.floor_intCast]
  norm_num

lemma pyround_nonneg {x : ℚ} (h : 0 ≤ x) : 0 ≤ pyround x := by
  have hf : (0 : ℤ) ≤ ⌊x⌋ := Int.floor_nonneg.mpr h
  unfold pyround
  split_ifs <;> omega

lemma pyround_neg (x : ℚ) : pyround (-x) = -pyround x := by
  by_cases hfx : Int.fract x = 0
  · have hx : x = (⌊x⌋ : ℚ) := by
      have h0 : x - ⌊x⌋ = 0 := hfx
      linarith
    rw [hx, ← Int.cast_neg, pyround_intCast, pyround_intCast]
  · have hneg : Int.fract (-x) = 1 - Int.fract x := Int.fract_neg hfx
    have hfl : ⌊-x⌋ = -⌊x⌋ - 1 := by
      have h1 : Int.fract (-x) = -x - ⌊-x⌋ := rfl
      have h2 : Int.fract x = x - ⌊x⌋ := rfl
      have hc : ((⌊-x⌋ : ℚ)) = ((-⌊x⌋ - 1 : ℤ) : ℚ) := by
        push_cast
        rw [h1, h2] at hneg
        linarith
      exact_mod_cast hc
    have hfpos : 0 < Int.fract x := lt_of_le_of_ne (Int.fract_nonneg x) (Ne.symm hfx)
    rcases lt_trichotomy (Int.fract x) (1/2) with h1 | h1 | h1
    · have hgt : 1/2 < Int.fract (-x) := by rw [hneg]; linarith
      unfold pyround
      rw [if_neg (not_lt.mpr (le_of_lt hgt)), if_pos hgt, if_pos h1, hfl]
      ring
    · have htie : Int.fract (-x) = 1/2 := by rw [hneg, h1]; norm_num
      unfold pyround
      rw [if_neg (not_lt.mpr (le_of_eq htie.symm)),
          if_neg (not_lt.mpr (le_of_eq htie)),
          if_neg (not_lt.mpr (le_of_eq h1.symm)),
          if_neg (not_lt.mpr (le_of_eq h1)), hfl]
      by_cases he : ⌊x⌋ % 2 = 0
      · rw [if_neg (by omega), if_pos he]; ring
      · rw [if_pos (by omega), if_neg he]; ring
    · have hlt : Int.fract (-x) < 1/2 := by rw [hneg]; linarith
      unfold pyround
      rw [if_pos hlt, if_neg (not_lt.mpr (le_of_lt h1)), if_pos h1, hfl]
      ring

lemma pyround_nonpos {x : ℚ} (h : x ≤ 0) : pyround x ≤ 0 := by
  have h1 : 0 ≤ pyround (-x) := pyround_nonneg (by linarith)
  rw [pyround_neg] at h1
  omega

lemma pyround_abs (x : ℚ) : pyround |x| = |pyround x| := by
  rcases le_or_lt 0 x with h | h
  · rw [abs_of_nonneg h, abs_of_nonneg (pyround_nonneg h)]
  · rw [abs_of_neg h, pyround_neg, abs_of_nonpos (pyround_nonpos (le_of_lt h))]

/-- `pyroundTo` commutes with absolute value (used by the Standard-format
axis choice: `abs(round(co, fp))` equals `round(abs(co), fp)`). -/
lemma pyroundTo_abs (fp : ℕ) (x : ℚ) : pyroundTo fp |x| = |pyroundTo fp x| := by
  unfold pyroundTo
  have hp : (0 : ℚ) < 10 ^ fp := by positivity
  rw [abs_div, abs_of_pos hp,
      show |x| * (10 : ℚ) ^ fp = |x * 10 ^ fp| by rw [abs_mul, abs_of_pos hp],
      pyround_abs, Int.cast_abs]

lemma snapco_idem (g : ℚ) (hg : g ≠ 0) (a : ℚ) :
    (pyround (((pyround (a / g) : ℚ) * g) / g) : ℚ) * g = (pyround (a / g) : ℚ) * g := by
  rw [mul_div_cancel_right₀ _ hg, pyround_intCast]

/-! ### Entity naming: `seen_names` and `entname`

`ExportQuakeMap.seen_names` (source line 299) is a class attribute, a
module-level mutable list.  `ExportQuakeMap.entname` (source lines
344-359) appends to it under the Doom 3 plane format and numbers
`"name"`/`"model"` keys by the running count.  The embedding threads the
list as explicit state; `execute` never reinitialises it, so a run
starts from whatever state earlier runs of the same process left. -/

inductive GroupOpt where
  | noGroup
  | gen
  | auto

inductive BrushOpt where
  | quake
  | doom3

/-- Python `str.rstrip('0123456789')`. -/
def rstripDigits (s : String) : String :=
  String.mk (s.toList.reverse.dropWhile Char.isDigit).reverse

/-- The three lines appended for one Doom 3 entity by `entname`
(source lines 353-358): the `classname` header plus numbered
`name` and `model` keys. -/
def d3block (tname : String) (k : ℕ) : String :=
  "\x7d\n\x7b\n\"classname\" \"" ++ tname ++ "\"\n" ++
    ("\"name\" \"" ++ tname ++ "_" ++ toString k ++ "\"\n") ++
    ("\"model\" \"" ++ tname ++ "_" ++ toString k ++ "\"\n")

/-- The `classname`-only block emitted when the plane format is not
Doom 3 (source line 353). -/
def classnameBlock (tname : String) : String :=
  "\x7d\n\x7b\n\"classname\" \"" ++ tname ++ "\"\n"

/-- Shared tail of `entname` (source lines 353-359): build the block and,
for Doom 3, append `tname` to `seen_names` and number it by the count. -/
def entnameTail (tname : String) (brush : BrushOpt) (seen : List String) :
    String × List String :=
  match brush with
  | .quake => (classnameBlock tname, seen)
  | .doom3 =>
    let seen' := seen ++ [tname]
    (d3block tname (seen'.count tname), seen')

/-- `ExportQuakeMap.entname`, source lines 344-359.  `none` models the
`IndexError` raised by `tname[-1]` when an `Auto`-grouped name strips to
the empty string. -/
def entname (group : GroupOpt) (gname : String) (brush : BrushOpt)
    (entName : String) (seen : List String) : Option (String × List String) :=
  match group with
  | .noGroup => some ("", seen)
  | .gen => some (entnameTail gname brush seen)
  | .auto =>
    let t := rstripDigits entName
    match t.toList.getLast? with
    | none => none
    | some c =>
      let tname := if c = '.' ∨ c = ' ' then String.mk t.toList.dropLast else entName
      some (entnameTail tname brush seen)

/-- One export run's sequence of `entname` calls (the brush-entity loop of
`execute`, source lines 931-948), threading `seen_names`. -/
def runEntnames (group : GroupOpt) (gname : String) (brush : BrushOpt)
    (ents : List String) (seen : List String) : Option (String × List String) :=
  match ents with
  | [] => some ("", seen)
  | e :: rest =>
    match entname group gname brush e seen with
    | none => none
    | some (s, seen') =>
      match runEntnames group gname brush rest seen' with
      | none => none
      | some (s2, seen'') => some (s ++ s2, seen'')

/-- A second export run in the same process: `seen_names` is a class
attribute and `execute` never resets it, so the second run starts from
the state the first run left behind. -/
def secondRun (group : GroupOpt) (gname : String) (brush : BrushOpt)
    (ents : List String) : Option (String × List String) :=
  match runEntnames group gname brush ents [] with
  | none => none
  | some (_, st) => runEntnames group gname brush ents st

/-- Modelled from the spec: the names a run should emit according to the
claim, as a function of the counter value at run start — block `i` is
numbered `c + i + 1` where `c` is how often the name was already seen. -/
def d3blocks (gname : String) (c : ℕ) : ℕ → String
  | 0 => ""
  | Nat.succ m => d3block gname (c + 1) ++ d3blocks gname (c + 1) m

/-- Claim C3: grid snapping is idempotent for every grid size `g > 0`,
the identity at grid zero, and computes `round(value/grid)*grid`
componentwise (source lines 362-367). -/
theorem gridsnap_idem (x : List ℚ) (g : ℚ) :
    (0 < g → gridsnap g (gridsnap g x) = gridsnap g x) ∧
    gridsnap 0 x = x ∧
    (g ≠ 0 → gridsnap g x = x.map (fun co => (pyround (co / g) : ℚ) * g)) := by
  refine ⟨fun hg => ?_, by simp [gridsnap], fun hg => by simp [gridsnap, hg]⟩
  have hg0 : g ≠ 0 := ne_of_gt hg
  induction x with
  | nil => simp [gridsnap]
  | cons a t ih =>
    simp only [gridsnap, if_neg hg0, List.map_cons] at ih ⊢
    rw [List.cons.injEq]
    exact ⟨snapco_idem g hg0 a, ih⟩

theorem gridsnap_idem_witness :
    gridsnap 2 (gridsnap 2 [3/2]) = gridsnap 2 [3/2] ∧
    gridsnap 2 [(3 : ℚ)/2] = [(3 : ℚ)/2].map (fun co => (pyround (co / 2) : ℚ) * 2) :=
  ⟨(gridsnap_idem [3/2] 2).1 (by norm_num), (gridsnap_idem [(3 : ℚ)/2] 2).2.2 (by norm_num)⟩

/-- Claim C2 (amended): a run's emitted entity names are a function of
the inputs and of the `seen_names` state at run start.  With Generic
grouping and the Doom 3 plane format, a run over `n` entities starting
from counter state `seen` emits blocks numbered from
`seen.count gname + 1` upward and leaves `seen` grown by `n` copies of
`gname` — the counter is process-wide and is never reset by `execute`,
so a later run in the same process continues the numbering. -/
theorem runEntnames_doom3_counter (gname : String) (ents : List String)
    (seen : List String) :
    runEntnames GroupOpt.gen gname BrushOpt.doom3 ents seen =
      some (d3blocks gname (seen.count gname) ents.length,
            seen ++ List.replicate ents.length gname) := by
  induction ents generalizing seen with
  | nil => simp [runEntnames, d3blocks]
  | cons e rest ih =>
    have hc : (seen ++ [gname]).count gname = seen.count gname + 1 := by
      simp [List.count_append]
    simp only [runEntnames, entname, entnameTail, ih, hc, List.length_cons]
    simp [d3blocks, List.replicate_succ, List.append_assoc]

/-- Claim C2 counterexample: with identical inputs and options (Generic
grouping, Doom 3 planes, one entity), a second export run in the same
process emits different text than the first, because `seen_names`
persisted: the first run's block is numbered `_1`, the second run's
`_2`. -/
theorem second_run_not_byte_identical :
    (runEntnames GroupOpt.gen "func_group" BrushOpt.doom3 ["Cube"] []).map Prod.fst ≠
      (secondRun GroupOpt.gen "func_group" BrushOpt.doom3 ["Cube"]).map Prod.fst := by
  decide

/-! ### Mesh-to-Brush builder: per-face loop, Soup and Blob transforms

From `ExportQuakeMap.process_mesh` (source lines 652-748).  The bmesh
host layer is out of scope: faces arrive with their vertex coordinates
and the area `face.calc_area()` computes. -/

abbrev Q3 := ℚ × ℚ × ℚ

/-- `mathutils` vector-times-scalar (componentwise). -/
def smulq (c : ℚ) (v : Q3) : Q3 := (c * v.1, c * v.2.1, c * v.2.2)

/-- Working-mesh vertex preprocessing, source line 667:
`vert.co = self.gridsnap(vert.co * self.option_scale)`. -/
def prepVert (grid scale : ℚ) (co : Q3) : Q3 := gridsnap3 grid (smulq scale co)

/-- The Blob apex, source lines 656 and 714-715: the poked apex is set to
`origin = self.gridsnap(obj.matrix_world.translation)` — the world
translation is grid-snapped but never multiplied by `option_scale`. -/
def blobApex (grid : ℚ) (translation : Q3) : Q3 := gridsnap3 grid translation

/-- A face as the per-face strategies see it: vertex coordinates plus the
area reported by the host (`face.calc_area()`). -/
structure MFace where
  verts : List Q3
  area : ℚ
deriving DecidableEq

/-- The degenerate-face guard of the per-face loop, source lines 703-704:
`if face.calc_area() <= 1e-4: continue` — only the faces surviving the
guard get a brush block emitted. -/
def facesToExport (faces : List MFace) : List MFace :=
  faces.filter (fun f => !(decide (f.area ≤ 1/10000)))

/-- The Soup bottom height, source lines 699-701:
`bottom = min(vert.co.z for vert in bm.verts); bottom -= depth`.
`none` models the `ValueError` python's `min` raises on an empty mesh. -/
def soupBottom (depth : ℚ) (verts : List Q3) : Option ℚ :=
  ((verts.map (fun v => v.2.2)).min?).map (fun m => m - depth)

/-- The Soup cap assignment, source lines 727-729: every vertex of the
extruded cap gets `vert.co.z = bottom`, with no further snapping. -/
def soupSetCap (bottom : ℚ) (cap : List Q3) : List Q3 :=
  cap.map (fun v => (v.1, v.2.1, bottom))

/-- Claim C5: a face whose area is below 1e-4 is silently skipped by the
per-face loop (no brush block emitted for it), and every face whose area
exceeds 1e-4 is exported. -/
theorem small_faces_skipped (faces : List MFace) (f : MFace) (hf : f ∈ faces) :
    (f.area < 1/10000 → f ∉ facesToExport faces) ∧
    (1/10000 < f.area → f ∈ facesToExport faces) := by
  constructor
  · intro h hmem
    rw [facesToExport, List.mem_filter] at hmem
    have h2 := hmem.2
    simp only [Bool.not_eq_true', decide_eq_false_iff_not, not_le] at h2
    linarith
  · intro h
    rw [facesToExport, List.mem_filter]
    refine ⟨hf, ?_⟩
    simp only [Bool.not_eq_true', decide_eq_false_iff_not, not_le]
    exact h

theorem small_faces_skipped_witness :
    (⟨[], 1/20000⟩ : MFace) ∉ facesToExport [⟨[], 1/20000⟩, ⟨[], 1⟩] ∧
    (⟨[], 1⟩ : MFace) ∈ facesToExport [⟨[], 1/20000⟩, ⟨[], 1⟩] :=
  ⟨(small_faces_skipped [⟨[], 1/20000⟩, ⟨[], 1⟩] ⟨[], 1/20000⟩
      (by simp)).1 (by norm_num),
   (small_faces_skipped [⟨[], 1/20000⟩, ⟨[], 1⟩] ⟨[], 1⟩
      (by simp)).2 (by norm_num)⟩

/-- Claim C4 (amended): under Soup, every vertex of every extruded cap is
assigned one shared Z coordinate equal to (minimum working-mesh vertex Z)
minus depth.  The shared value is *not* grid-snapped again — it is a grid
multiple only when the snapped minimum and the depth both are. -/
theorem soup_caps_share_z (depth : ℚ) (verts : List Q3) (zmin b : ℚ)
    (cap : List Q3) (w : Q3)
    (hmin : (verts.map (fun v => v.2.2)).min? = some zmin)
    (hb : soupBottom depth verts = some b)
    (hw : w ∈ soupSetCap b cap) :
    w.2.2 = zmin - depth ∧ ∀ w' ∈ soupSetCap b cap, w'.2.2 = w.2.2 := by
  have hbz : b = zmin - depth := by
    rw [soupBottom, hmin] at hb
    simpa using hb.symm
  obtain ⟨v, -, rfl⟩ := List.mem_map.mp hw
  refine ⟨hbz, ?_⟩
  intro w' hw'
  obtain ⟨v', -, rfl⟩ := List.mem_map.mp hw'
  rfl

theorem soup_caps_share_z_witness :
    ((1 : ℚ), (2 : ℚ), (1 : ℚ)).2.2 = 2 - 1 ∧
      ∀ w' ∈ soupSetCap 1 [((1 : ℚ), 2, 9), ((3 : ℚ), 4, 7)],
        w'.2.2 = ((1 : ℚ), (2 : ℚ), (1 : ℚ)).2.2 :=
  soup_caps_share_z 1 [((0 : ℚ), 0, 2)] 2 1
    [((1 : ℚ), 2, 9), ((3 : ℚ), 4, 7)] ((1 : ℚ), (2 : ℚ), (1 : ℚ))
    rfl (by norm_num [soupBottom, List.min?]) (by simp [soupSetCap])

lemma floor_neg_half : ⌊(-(1/2) : ℚ)⌋ = -1 := by
  rw [Int.floor_eq_iff]
  norm_num

lemma pyround_neg_half : pyround (-(1/2)) = 0 := by
  have hfr : Int.fract (-(1/2) : ℚ) = 1/2 := by
    rw [Int.fract, floor_neg_half]
    norm_num
  unfold pyround
  rw [hfr, floor_neg_half]
  rw [if_neg (by norm_num), if_neg (by norm_num), if_neg (by decide)]
  norm_num

/-- Claim C4 counterexample: with working mesh `[(0,0,0)]` (already a
grid point for grid 1) and depth 1/2, the shared cap Z is -1/2, which is
not snapped to the grid: `gridsnap 1 [-1/2] = [0] ≠ [-1/2]`. -/
theorem soup_bottom_not_snapped :
    soupBottom (1/2) [((0 : ℚ), 0, 0)] = some (-(1/2)) ∧
    soupSetCap (-(1/2)) [((0 : ℚ), 0, 0)] = [((0 : ℚ), 0, -(1/2))] ∧
    gridsnap 1 [-(1/2)] ≠ [-(1/2)] := by
  refine ⟨by norm_num [soupBottom, List.min?], by simp [soupSetCap], ?_⟩
  simp only [gridsnap, one_ne_zero, if_neg, List.map_cons, List.map_nil, div_one,
    pyround_neg_half]
  intro h
  have h1 := (List.cons.injEq _ _ _ _).mp h
  norm_num at h1

/-- Claim C10: the Blob apex is the grid-snapped world translation with
no scale factor applied, while every working-mesh vertex is scaled before
snapping; hence for any scale other than 1 the apex of an object at
translation (1,1,1) (grid 0) differs from the scaled image of its
origin. -/
theorem blob_apex_unscaled :
    (∀ g t, blobApex g t = gridsnap3 g t) ∧
    (∀ g s co, prepVert g s co = gridsnap3 g (smulq s co)) ∧
    (∀ s : ℚ, s ≠ 1 →
      blobApex 0 (1, 1, 1) ≠ gridsnap3 0 (smulq s (1, 1, 1))) := by
  refine ⟨fun g t => rfl, fun g s co => rfl, fun s hs => ?_⟩
  simp only [blobApex, gridsnap3, if_pos rfl, smulq, mul_one]
  intro h
  exact hs (congrArg Prod.fst h).symm

theorem blob_apex_unscaled_witness :
    blobApex 0 (1, 1, 1) ≠ gridsnap3 0 (smulq 2 (1, 1, 1)) :=
  blob_apex_unscaled.2.2 2 (by norm_num)

/-! ### Texture Projection Solver, Standard format: axis choice

Source lines 536-542: `maxn = max(abs(round(co, fp)) for co in
face.normal)`, then the loop `for i in [2,0,1]` picks the first axis with
`round(abs(normal[i]), fp) == maxn`, and the edge vectors are projected
by dropping that axis (`world01[:axis] + world01[(axis+1):]`). -/

def subq3 (a b : Q3) : Q3 := (a.1 - b.1, a.2.1 - b.2.1, a.2.2 - b.2.2)

/-- Component `i` of a coordinate triple. -/
def axisComp (i : Fin 3) (n : Q3) : ℚ :=
  match i with
  | 0 => n.1
  | 1 => n.2.1
  | 2 => n.2.2

/-- Python slicing `v[:axis] + v[(axis+1):]` on a 3-vector. -/
def dropAxis (i : Fin 3) (v : Q3) : ℚ × ℚ :=
  match i with
  | 0 => (v.2.1, v.2.2)
  | 1 => (v.1, v.2.2)
  | 2 => (v.1, v.2.1)

/-- `maxn` of source line 536: `max(abs(round(co, fp)) for co in normal)`. -/
def chooseMaxn (fp : ℕ) (n : Q3) : ℚ :=
  max |pyroundTo fp n.1| (max |pyroundTo fp n.2.1| |pyroundTo fp n.2.2|)

/-- The axis-priority loop of source lines 537-539 (`for i in [2,0,1]`).
`none` models the `NameError` were no axis to match (the theorem shows
this cannot happen). -/
def chooseAxis (fp : ℕ) (n : Q3) : Option (Fin 3) :=
  if pyroundTo fp |n.2.2| = chooseMaxn fp n then some 2
  else if pyroundTo fp |n.1| = chooseMaxn fp n then some 0
  else if pyroundTo fp |n.2.1| = chooseMaxn fp n then some 1
  else none

/-- The 2D projections of the edge vectors, source lines 541-542. -/
def quakeProjEdges (fp : ℕ) (n V0 V1 V2 : Q3) : Option ((ℚ × ℚ) × (ℚ × ℚ)) :=
  (chooseAxis fp n).map
    (fun a => (dropAxis a (subq3 V1 V0), dropAxis a (subq3 V2 V0)))

/-- Modelled from the spec's wording: the maximum of the rounded absolute
values of the normal's components. -/
def roundedAbsMax (fp : ℕ) (n : Q3) : ℚ :=
  max (pyroundTo fp |n.1|) (max (pyroundTo fp |n.2.1|) (pyroundTo fp |n.2.2|))

lemma chooseMaxn_eq_roundedAbsMax (fp : ℕ) (n : Q3) :
    chooseMaxn fp n = roundedAbsMax fp n := by
  unfold chooseMaxn roundedAbsMax
  rw [pyroundTo_abs, pyroundTo_abs, pyroundTo_abs]

/-- Claim C6: the Standard format drops the axis whose face-normal
component has the maximal absolute value after rounding to the configured
precision, with ties broken in the fixed order Z, X, Y, and projects both
edge vectors by dropping exactly that axis. -/
theorem quake_axis_choice (fp : ℕ) (n V0 V1 V2 : Q3) :
    ∃ i : Fin 3,
      chooseAxis fp n = some i ∧
      quakeProjEdges fp n V0 V1 V2 =
        some (dropAxis i (subq3 V1 V0), dropAxis i (subq3 V2 V0)) ∧
      pyroundTo fp |axisComp i n| = roundedAbsMax fp n ∧
      (i = 2 ∨
        (pyroundTo fp |n.2.2| ≠ roundedAbsMax fp n ∧
          (i = 0 ∨
            (pyroundTo fp |n.1| ≠ roundedAbsMax fp n ∧ i = 1)))) := by
  have hM := chooseMaxn_eq_roundedAbsMax fp n
  by_cases h2 : pyroundTo fp |n.2.2| = roundedAbsMax fp n
  · have hc : chooseAxis fp n = some 2 := by
      unfold chooseAxis
      rw [hM, if_pos h2]
    exact ⟨2, hc, by rw [quakeProjEdges, hc]; rfl, h2, Or.inl rfl⟩
  · by_cases h0 : pyroundTo fp |n.1| = roundedAbsMax fp n
    · have hc : chooseAxis fp n = some 0 := by
        unfold chooseAxis
        rw [hM, if_neg h2, if_pos h0]
      exact ⟨0, hc, by rw [quakeProjEdges, hc]; rfl, h0,
        Or.inr ⟨h2, Or.inl rfl⟩⟩
    · have h1 : pyroundTo fp |n.2.1| = roundedAbsMax fp n := by
        have habs0 : |pyroundTo fp n.1| = pyroundTo fp |n.1| :=
          (pyroundTo_abs fp n.1).symm
        have habs1 : |pyroundTo fp n.2.1| = pyroundTo fp |n.2.1| :=
          (pyroundTo_abs fp n.2.1).symm
        have habs2 : |pyroundTo fp n.2.2| = pyroundTo fp |n.2.2| :=
          (pyroundTo_abs fp n.2.2).symm
        have hsplit := max_choice (pyroundTo fp |n.1|)
          (max (pyroundTo fp |n.2.1|) (pyroundTo fp |n.2.2|))
        have hMdef : roundedAbsMax fp n =
            max (pyroundTo fp |n.1|)
              (max (pyroundTo fp |n.2.1|) (pyroundTo fp |n.2.2|)) := rfl
        rcases hsplit with hs | hs
        · exact absurd (hMdef.trans hs).symm h0
        · rcases max_choice (pyroundTo fp |n.2.1|) (pyroundTo fp |n.2.2|)
            with ht | ht
          · exact (hMdef.trans (hs.trans ht)).symm
          · exact absurd (hMdef.trans (hs.trans ht)).symm h2
      have hc : chooseAxis fp n = some 1 := by
        unfold chooseAxis
        rw [hM, if_neg h2, if_neg h0, if_pos h1]
      exact ⟨1, hc, by rw [quakeProjEdges, hc]; rfl, h1,
        Or.inr ⟨h2, Or.inr ⟨h0, rfl⟩⟩⟩

/-! ### Plane Emitter

`ExportQuakeMap.brushplane`, source lines 377-387.  The text assembly
(`printvec`) is simple formatting over the vectors computed here and is
out of scope; the emitted payload is modelled as data. -/

abbrev R3 := ℝ × ℝ × ℝ

def dot3 (a b : R3) : ℝ := a.1 * b.1 + a.2.1 * b.2.1 + a.2.2 * b.2.2

noncomputable def norm3 (a : R3) : ℝ := Real.sqrt (dot3 a a)

/-- `mathutils.geometry.distance_point_to_plane(pt, plane_co, plane_no)`:
builds the plane `(no, -no . co)` through `plane_co` and returns the
plane side value of `pt` divided by the normal's length. -/
noncomputable def distancePointToPlane (pt planeCo planeNo : R3) : ℝ :=
  (dot3 planeNo pt - dot3 planeNo planeCo) / norm3 planeNo

/-- A face as `brushplane` consumes it (bmesh guarantees at least three
vertices per face). -/
structure RFace where
  verts : List R3
  normal : R3

/-- The payload a plane encoding carries: three points, or a normal with
a signed distance. -/
inductive PlaneRepr where
  | threePoint (ps : List R3)
  | normalDist (n : R3) (d : ℝ)

/-- `ExportQuakeMap.brushplane`, source lines 377-387: Quake planes are
`reversed(face.verts[0:3])`; Doom 3 planes are the face normal plus
`geometry.distance_point_to_plane((0,0,0), face.verts[0].co, face.normal)`.
It only reads the face. -/
noncomputable def brushplane (brush : BrushOpt) (face : RFace) : PlaneRepr :=
  match brush with
  | .quake => .threePoint (face.verts.take 3).reverse
  | .doom3 =>
    .normalDist face.normal
      (distancePointToPlane (0, 0, 0) (face.verts.headD (0, 0, 0)) face.normal)

/-- Claim C7: for every face with at least three vertices, three-point
mode emits the first three vertices reversed, and normal+distance mode
emits the normal with the origin-to-plane projection distance (which at
the origin equals the negated dot product over the normal's length); the
emitter is a pure total function. -/
theorem plane_emitter (f : RFace) (a b c : R3) (rest : List R3)
    (hv : f.verts = a :: b :: c :: rest) :
    brushplane BrushOpt.quake f = PlaneRepr.threePoint [c, b, a] ∧
    brushplane BrushOpt.doom3 f =
      PlaneRepr.normalDist f.normal
        (distancePointToPlane (0, 0, 0) a f.normal) ∧
    distancePointToPlane (0, 0, 0) a f.normal =
      -(dot3 f.normal a) / norm3 f.normal := by
  refine ⟨?_, ?_, ?_⟩
  · simp only [brushplane]
    rw [hv]
    rfl
  · simp only [brushplane]
    rw [hv]
    rfl
  · have h0 : dot3 f.normal (0, 0, 0) = 0 := by
      simp [dot3]
    rw [distancePointToPlane, h0, zero_sub]

noncomputable def rfaceUnit : RFace :=
  ⟨[((0 : ℝ), 0, 0), ((1 : ℝ), 0, 0), ((0 : ℝ), 1, 0)], ((0 : ℝ), 0, 1)⟩

theorem plane_emitter_witness :
    brushplane BrushOpt.quake rfaceUnit =
      PlaneRepr.threePoint [((0 : ℝ), 1, 0), ((1 : ℝ), 0, 0), ((0 : ℝ), 0, 0)] ∧
    brushplane BrushOpt.doom3 rfaceUnit =
      PlaneRepr.normalDist rfaceUnit.normal
        (distancePointToPlane (0, 0, 0) ((0 : ℝ), 0, 0) rfaceUnit.normal) ∧
    distancePointToPlane (0, 0, 0) ((0 : ℝ), 0, 0) rfaceUnit.normal =
      -(dot3 rfaceUnit.normal ((0 : ℝ), 0, 0)) / norm3 rfaceUnit.normal :=
  plane_emitter rfaceUnit ((0 : ℝ), 0, 0) ((1 : ℝ), 0, 0) ((0 : ℝ), 1, 0) [] rfl

/-! ### Texture Projection Solver, Valve format

Source lines 433-525.  The 4x4 system of lines 485-491 is block
structured: rows 1 and 3 constrain `(m11,m12)` and rows 2 and 4 constrain
`(m21,m22)`, both through the same 2x2 matrix `[[ax,ay],[bx,by]]`, so the
4x4 determinant is the square of the 2x2 one and `numpy.linalg.solve`
raises `LinAlgError` exactly when that 2x2 determinant vanishes.  The
`except` around the solve returns the dummy basis; `Vector.angle` on a
zero-length edge raises `ValueError` out of the function (modelled as
`none`). -/

def subr3 (a b : R3) : R3 := (a.1 - b.1, a.2.1 - b.2.1, a.2.2 - b.2.2)

def add3 (a b : R3) : R3 := (a.1 + b.1, a.2.1 + b.2.1, a.2.2 + b.2.2)

def smul3 (c : ℝ) (a : R3) : R3 := (c * a.1, c * a.2.1, c * a.2.2)

def cross3 (a b : R3) : R3 :=
  (a.2.1 * b.2.2 - a.2.2 * b.2.1,
   a.2.2 * b.1 - a.1 * b.2.2,
   a.1 * b.2.1 - a.2.1 * b.1)

noncomputable def norm2 (a : ℝ × ℝ) : ℝ := Real.sqrt (a.1 * a.1 + a.2 * a.2)

/-- `mathutils` `Vector.normalized()`: divide by the length; the zero
vector stays zero. -/
noncomputable def normalize3 (a : R3) : R3 :=
  if norm3 a = 0 then a else smul3 (norm3 a)⁻¹ a

/-- `mathutils` `Vector.angle(other)`: `acos` of the normalized dot
product (the host clamps to [-1,1]; `Real.arccos` is total the same way). -/
noncomputable def vangle (a b : R3) : ℝ :=
  Real.arccos (dot3 a b / (norm3 a * norm3 b))

/-- C `atan2`, as used by `math.atan2` (source lines 505-506). -/
noncomputable def atan2 (y x : ℝ) : ℝ :=
  if 0 < x then Real.arctan (y / x)
  else if x < 0 then
    (if 0 ≤ y then Real.arctan (y / x) + Real.pi
     else Real.arctan (y / x) - Real.pi)
  else if 0 < y then Real.pi / 2
  else if y < 0 then -(Real.pi / 2)
  else 0

/-- `mathutils` `Matrix.Rotation(angle, 3, axis)` applied to a vector:
Rodrigues' rotation about the normalized axis; the zero axis yields the
identity matrix. -/
noncomputable def rotAxis (angle : ℝ) (axis v : R3) : R3 :=
  if norm3 axis = 0 then v
  else
    add3 (add3 (smul3 (Real.cos angle) v)
               (smul3 (Real.sin angle) (cross3 (normalize3 axis) v)))
         (smul3 (dot3 (normalize3 axis) v * (1 - Real.cos angle))
                (normalize3 axis))

/-- The Valve-format texture basis: two 3D axes with their offsets
(`[ax ay az aoff] [bx by bz boff]`), rotation 0 and the two scales. -/
structure ValveBasis where
  rt : R3
  offU : ℝ
  up : R3
  offV : ℝ
  scaleU : ℝ
  scaleV : ℝ

/-- Outcome of the Valve path: the dummy fallback of source line 435, or
a solved basis. -/
inductive ValveOut where
  | fallback
  | ok (b : ValveBasis)

/-- The documented Valve default ` [ 1 0 0 0 ] [ 0 -1 0 0 ] 0 1 1`
(source line 435). -/
noncomputable def valveDummy : ValveBasis :=
  ⟨(1, 0, 0), 0, (0, -1, 0), 0, 1, 1⟩

/-- The signed edge angle `world01_02Angle` (source lines 443-445). -/
noncomputable def valveTheta (V0 V1 V2 n : R3) : ℝ :=
  if dot3 n (cross3 (subr3 V1 V0) (subr3 V2 V0)) < 0
  then -(vangle (subr3 V1 V0) (subr3 V2 V0))
  else vangle (subr3 V1 V0) (subr3 V2 V0)

/-- `world01_2d` (source line 446). -/
noncomputable def valveA (V0 V1 : R3) : ℝ × ℝ := (norm3 (subr3 V1 V0), 0)

/-- `world02_2d` (source lines 447-448). -/
noncomputable def valveB (V0 V1 V2 n : R3) : ℝ × ℝ :=
  (Real.cos (valveTheta V0 V1 V2 n) * norm3 (subr3 V2 V0),
   Real.sin (valveTheta V0 V1 V2 n) * norm3 (subr3 V2 V0))

/-- The 2x2 block determinant of the `world2DMatrix` of lines 486-489. -/
noncomputable def valveDet (V0 V1 V2 n : R3) : ℝ :=
  (valveA V0 V1).1 * (valveB V0 V1 V2 n).2 -
    (valveA V0 V1).2 * (valveB V0 V1 V2 n).1

/-- Cramer's rule for `[[a1,a2],[b1,b2]] m = (p,q)`; one block of the
4x4 solve of source line 491. -/
noncomputable def solve22 (a b : ℝ × ℝ) (p q : ℝ) : ℝ × ℝ :=
  ((p * b.2 - a.2 * q) / (a.1 * b.2 - a.2 * b.1),
   (a.1 * q - b.1 * p) / (a.1 * b.2 - a.2 * b.1))

/-- `right_2dworld = mCoeffs[0:2]` (source line 494): the block of the
solve fed by the u components of the scaled UV deltas. -/
noncomputable def valveRight (V0 V1 V2 : R3) (T0 T1 T2 : ℝ × ℝ) (n : R3)
    (width height : ℝ) : ℝ × ℝ :=
  solve22 (valveA V0 V1) (valveB V0 V1 V2 n)
    ((T1.1 - T0.1) * width) ((T2.1 - T0.1) * width)

/-- `up_2dworld = mCoeffs[2:4]` (source line 495): the block fed by the
v components, scaled by the negated height (v is flipped, line 437). -/
noncomputable def valveUp2 (V0 V1 V2 : R3) (T0 T1 T2 : ℝ × ℝ) (n : R3)
    (width height : ℝ) : ℝ × ℝ :=
  solve22 (valveA V0 V1) (valveB V0 V1 V2 n)
    ((T1.2 - T0.2) * -height) ((T2.2 - T0.2) * -height)

/-- `1 / max(0.00001, length)` (source lines 499-500). -/
noncomputable def valveScale (r : ℝ × ℝ) : ℝ := 1 / max (1/100000) (norm2 r)

/-- Rebuild a texture axis in 3D (source lines 510-513): rotate the
normalized first edge about the face normal by the solved 2D angle. -/
noncomputable def valveAxis (theta2d : ℝ) (V0 V1 n : R3) : R3 :=
  rotAxis theta2d n (normalize3 (subr3 V1 V0))

noncomputable def valveRT (V0 V1 V2 : R3) (T0 T1 T2 : ℝ × ℝ) (n : R3)
    (width height : ℝ) : R3 :=
  valveAxis (atan2 (valveRight V0 V1 V2 T0 T1 T2 n width height).2
                   (valveRight V0 V1 V2 T0 T1 T2 n width height).1) V0 V1 n

noncomputable def valveUP (V0 V1 V2 : R3) (T0 T1 T2 : ℝ × ℝ) (n : R3)
    (width height : ℝ) : R3 :=
  valveAxis (atan2 (valveUp2 V0 V1 V2 T0 T1 T2 n width height).2
                   (valveUp2 V0 V1 V2 T0 T1 T2 n width height).1) V0 V1 n

/-- The solved Valve basis (source lines 494-525): scales from the
floored axis lengths, axes from the rotated first edge, offsets solved
from vertex `V0`'s known UV (`test_s`/`test_t`, lines 516-521). -/
noncomputable def valveBasisOf (V0 V1 V2 : R3) (T0 T1 T2 : ℝ × ℝ) (n : R3)
    (width height : ℝ) : ValveBasis :=
  { rt := valveRT V0 V1 V2 T0 T1 T2 n width height
    offU := (T0.1 - dot3 V0 (valveRT V0 V1 V2 T0 T1 T2 n width height) /
              (width * valveScale (valveRight V0 V1 V2 T0 T1 T2 n width height)))
            * width
    up := valveUP V0 V1 V2 T0 T1 T2 n width height
    offV := (T0.2 - dot3 V0 (valveUP V0 V1 V2 T0 T1 T2 n width height) /
              (-height * valveScale (valveUp2 V0 V1 V2 T0 T1 T2 n width height)))
            * -height
    scaleU := valveScale (valveRight V0 V1 V2 T0 T1 T2 n width height)
    scaleV := valveScale (valveUp2 V0 V1 V2 T0 T1 T2 n width height) }

/-- The Valve branch of `ExportQuakeMap.texdata` (source lines 433-525).
`none`: `Vector.angle` raised on a zero-length edge; `fallback`: the
singular solve returned the dummy; `ok`: the solved basis. -/
noncomputable def texdataValve (V0 V1 V2 : R3) (T0 T1 T2 : ℝ × ℝ) (n : R3)
    (width height : ℝ) : Option ValveOut :=
  if norm3 (subr3 V1 V0) = 0 ∨ norm3 (subr3 V2 V0) = 0 then none
  else if valveDet V0 V1 V2 n = 0 then some .fallback
  else some (.ok (valveBasisOf V0 V1 V2 T0 T1 T2 n width height))

lemma valveScale_bounds (r : ℝ × ℝ) :
    0 < valveScale r ∧ valveScale r ≤ 100000 := by
  have h1 : (0 : ℝ) < 1/100000 := by norm_num
  have h2 : (1/100000 : ℝ) ≤ max (1/100000) (norm2 r) := le_max_left _ _
  have h3 : (0 : ℝ) < max (1/100000) (norm2 r) := lt_of_lt_of_le h1 h2
  constructor
  · exact one_div_pos.mpr h3
  · calc 1 / max (1/100000 : ℝ) (norm2 r) ≤ 1/(1/100000) :=
        one_div_le_one_div_of_le h1 h2
    _ = 100000 := by norm_num
  
/-- Claim C9: whenever the Valve solve succeeds, each emitted scale is
`1 / max(1e-5, solved axis length)`, hence strictly positive and at most
1e5 — never a division by zero, even for degenerate or missing UVs. -/
theorem valve_scales_bounded (V0 V1 V2 : R3) (T0 T1 T2 : ℝ × ℝ) (n : R3)
    (w h : ℝ) (b : ValveBasis)
    (hb : texdataValve V0 V1 V2 T0 T1 T2 n w h = some (ValveOut.ok b)) :
    b.scaleU = valveScale (valveRight V0 V1 V2 T0 T1 T2 n w h) ∧
    b.scaleV = valveScale (valveUp2 V0 V1 V2 T0 T1 T2 n w h) ∧
    0 < b.scaleU ∧ b.scaleU ≤ 100000 ∧ 0 < b.scaleV ∧ b.scaleV ≤ 100000 := by
  unfold texdataValve at hb
  split_ifs at hb
  · exact ValveOut.noConfusion (Option.some.inj hb)
  · have hbeq : valveBasisOf V0 V1 V2 T0 T1 T2 n w h = b :=
      ValveOut.ok.inj (Option.some.inj hb)
    subst hbeq
    exact ⟨rfl, rfl, (valveScale_bounds _).1, (valveScale_bounds _).2,
      (valveScale_bounds _).1, (valveScale_bounds _).2⟩

lemma atan2_zero_zero : atan2 0 0 = 0 := by
  unfold atan2
  norm_num

lemma rotAxis_zero_angle (axis v : R3) : rotAxis 0 axis v = v := by
  unfold rotAxis
  split
  · rfl
  · simp [Real.cos_zero, Real.sin_zero, smul3, add3, sub_self]

lemma norm3_unitX : norm3 ((1 : ℝ), 0, 0) = 1 := by
  simp [norm3, dot3]

lemma norm3_unitY : norm3 ((0 : ℝ), 1, 0) = 1 := by
  simp [norm3, dot3]

lemma normalize3_unitX : normalize3 ((1 : ℝ), 0, 0) = ((1 : ℝ), 0, 0) := by
  unfold normalize3
  rw [norm3_unitX, if_neg one_ne_zero]
  norm_num [smul3]

lemma valveRight_degenerate (V0 V1 V2 : R3) (T : ℝ × ℝ) (n : R3) (w h : ℝ) :
    valveRight V0 V1 V2 T T T n w h = (0, 0) := by
  unfold valveRight solve22
  norm_num

lemma valveUp2_degenerate (V0 V1 V2 : R3) (T : ℝ × ℝ) (n : R3) (w h : ℝ) :
    valveUp2 V0 V1 V2 T T T n w h = (0, 0) := by
  unfold valveUp2 solve22
  norm_num

lemma valveScale_zeroVec : valveScale ((0 : ℝ), 0) = 100000 := by
  unfold valveScale norm2
  rw [show ((0 : ℝ) * 0 + 0 * 0) = 0 by norm_num, Real.sqrt_zero,
    max_eq_left (by norm_num)]
  norm_num

lemma subr3_unitX : subr3 ((1 : ℝ), 0, 0) ((0 : ℝ), 0, 0) = ((1 : ℝ), 0, 0) := by
  norm_num [subr3]

lemma subr3_unitY : subr3 ((0 : ℝ), 1, 0) ((0 : ℝ), 0, 0) = ((0 : ℝ), 1, 0) := by
  norm_num [subr3]

lemma valveTheta_cc :
    valveTheta ((0 : ℝ), 0, 0) ((1 : ℝ), 0, 0) ((0 : ℝ), 1, 0) ((0 : ℝ), 0, 1) =
      Real.pi / 2 := by
  unfold valveTheta
  rw [subr3_unitX, subr3_unitY]
  rw [show cross3 ((1 : ℝ), 0, 0) ((0 : ℝ), 1, 0) = ((0 : ℝ), 0, 1) by
    norm_num [cross3]]
  rw [show dot3 ((0 : ℝ), 0, 1) ((0 : ℝ), 0, 1) = 1 by norm_num [dot3]]
  rw [if_neg (by norm_num)]
  unfold vangle
  rw [show dot3 ((1 : ℝ), 0, 0) ((0 : ℝ), 1, 0) = 0 by norm_num [dot3],
    norm3_unitX, norm3_unitY]
  norm_num [Real.arccos_zero]

lemma valveDet_cc :
    valveDet ((0 : ℝ), 0, 0) ((1 : ℝ), 0, 0) ((0 : ℝ), 1, 0) ((0 : ℝ), 0, 1) =
      1 := by
  unfold valveDet valveA valveB
  rw [valveTheta_cc, subr3_unitX, subr3_unitY, norm3_unitX, norm3_unitY]
  simp [Real.sin_pi_div_two, Real.cos_pi_div_two]

/-- Full evaluation of the Valve path on a non-degenerate right triangle
whose three UVs are all (0,0): the solve succeeds, the coefficients are
all zero, and the emitted scales hit the 1e-5 floor, giving 100000. -/
lemma valve_cc_eval :
    texdataValve ((0 : ℝ), 0, 0) ((1 : ℝ), 0, 0) ((0 : ℝ), 1, 0)
        (0, 0) (0, 0) (0, 0) ((0 : ℝ), 0, 1) 64 64 =
      some (ValveOut.ok
        ⟨((1 : ℝ), 0, 0), 0, ((1 : ℝ), 0, 0), 0, 100000, 100000⟩) := by
  have hright := valveRight_degenerate ((0 : ℝ), 0, 0) ((1 : ℝ), 0, 0)
    ((0 : ℝ), 1, 0) (0, 0) ((0 : ℝ), 0, 1) 64 64
  have hup2 := valveUp2_degenerate ((0 : ℝ), 0, 0) ((1 : ℝ), 0, 0)
    ((0 : ℝ), 1, 0) (0, 0) ((0 : ℝ), 0, 1) 64 64
  have hrt : valveRT ((0 : ℝ), 0, 0) ((1 : ℝ), 0, 0) ((0 : ℝ), 1, 0)
      (0, 0) (0, 0) (0, 0) ((0 : ℝ), 0, 1) 64 64 = ((1 : ℝ), 0, 0) := by
    unfold valveRT
    rw [hright]
    dsimp only
    rw [atan2_zero_zero]
    unfold valveAxis
    rw [rotAxis_zero_angle, subr3_unitX, normalize3_unitX]
  have hup : valveUP ((0 : ℝ), 0, 0) ((1 : ℝ), 0, 0) ((0 : ℝ), 1, 0)
      (0, 0) (0, 0) (0, 0) ((0 : ℝ), 0, 1) 64 64 = ((1 : ℝ), 0, 0) := by
    unfold valveUP
    rw [hup2]
    dsimp only
    rw [atan2_zero_zero]
    unfold valveAxis
    rw [rotAxis_zero_angle, subr3_unitX, normalize3_unitX]
  have hbasis : valveBasisOf ((0 : ℝ), 0, 0) ((1 : ℝ), 0, 0) ((0 : ℝ), 1, 0)
      (0, 0) (0, 0) (0, 0) ((0 : ℝ), 0, 1) 64 64 =
      ⟨((1 : ℝ), 0, 0), 0, ((1 : ℝ), 0, 0), 0, 100000, 100000⟩ := by
    unfold valveBasisOf
    rw [hrt, hup, hright, hup2, valveScale_zeroVec]
    rw [show dot3 ((0 : ℝ), 0, 0) ((1 : ℝ), 0, 0) = 0 by norm_num [dot3]]
    norm_num
  unfold texdataValve
  rw [subr3_unitX, subr3_unitY, norm3_unitX]
  rw [if_neg (by rw [norm3_unitY]; norm_num)]
  rw [if_neg (by rw [valveDet_cc]; norm_num), hbasis]

/-- Claim C1 (amended): the default basis is emitted exactly when the
linear solve fails, and that solve only involves the face's geometry, not
its UVs.  A degenerate UV triangle (three equal UVs) on solvable geometry
(nonzero edge vectors, nonzero 2D-world determinant) yields a
successfully solved basis whose scales are both 100000 — the floored
reciprocal of the zero axis length — not the documented Valve default,
whose scales are 1; no computational error occurs. -/
theorem degenerate_uv_not_default (V0 V1 V2 : R3) (T : ℝ × ℝ) (n : R3)
    (w h : ℝ) (h1 : norm3 (subr3 V1 V0) ≠ 0) (h2 : norm3 (subr3 V2 V0) ≠ 0)
    (hD : valveDet V0 V1 V2 n ≠ 0) :
    texdataValve V0 V1 V2 T T T n w h =
      some (ValveOut.ok (valveBasisOf V0 V1 V2 T T T n w h)) ∧
    (valveBasisOf V0 V1 V2 T T T n w h).scaleU = 100000 ∧
    (valveBasisOf V0 V1 V2 T T T n w h).scaleV = 100000 ∧
    valveDummy.scaleU = 1 ∧ valveDummy.scaleV = 1 := by
  refine ⟨?_, ?_, ?_, rfl, rfl⟩
  · unfold texdataValve
    rw [if_neg (not_or.mpr ⟨h1, h2⟩), if_neg hD]
  · show valveScale (valveRight V0 V1 V2 T T T n w h) = 100000
    rw [valveRight_degenerate, valveScale_zeroVec]
  · show valveScale (valveUp2 V0 V1 V2 T T T n w h) = 100000
    rw [valveUp2_degenerate, valveScale_zeroVec]

theorem degenerate_uv_not_default_witness :
    texdataValve ((0 : ℝ), 0, 0) ((1 : ℝ), 0, 0) ((0 : ℝ), 1, 0)
        (0, 0) (0, 0) (0, 0) ((0 : ℝ), 0, 1) 64 64 =
      some (ValveOut.ok (valveBasisOf ((0 : ℝ), 0, 0) ((1 : ℝ), 0, 0)
        ((0 : ℝ), 1, 0) (0, 0) (0, 0) (0, 0) ((0 : ℝ), 0, 1) 64 64)) ∧
    (valveBasisOf ((0 : ℝ), 0, 0) ((1 : ℝ), 0, 0) ((0 : ℝ), 1, 0)
        (0, 0) (0, 0) (0, 0) ((0 : ℝ), 0, 1) 64 64).scaleU = 100000 ∧
    (valveBasisOf ((0 : ℝ), 0, 0) ((1 : ℝ), 0, 0) ((0 : ℝ), 1, 0)
        (0, 0) (0, 0) (0, 0) ((0 : ℝ), 0, 1) 64 64).scaleV = 100000 ∧
    valveDummy.scaleU = 1 ∧ valveDummy.scaleV = 1 :=
  degenerate_uv_not_default ((0 : ℝ), 0, 0) ((1 : ℝ), 0, 0) ((0 : ℝ), 1, 0)
    (0, 0) ((0 : ℝ), 0, 1) 64 64
    (by rw [subr3_unitX, norm3_unitX]; norm_num)
    (by rw [subr3_unitY, norm3_unitY]; norm_num)
    (by rw [valveDet_cc]; norm_num)

/-- Claim C1 counterexample: a non-degenerate right triangle whose three
reference UVs are all identical ((0,0)) is solved, not defaulted: the
Valve path returns scales of 100000 while the documented default has
unit scales. -/
theorem degenerate_uv_counterexample :
    texdataValve ((0 : ℝ), 0, 0) ((1 : ℝ), 0, 0) ((0 : ℝ), 1, 0)
        (0, 0) (0, 0) (0, 0) ((0 : ℝ), 0, 1) 64 64 =
      some (ValveOut.ok
        ⟨((1 : ℝ), 0, 0), 0, ((1 : ℝ), 0, 0), 0, 100000, 100000⟩) ∧
    (100000 : ℝ) ≠ valveDummy.scaleU :=
  ⟨valve_cc_eval, by norm_num [valveDummy]⟩

theorem valve_scales_bounded_witness :
    (⟨((1 : ℝ), 0, 0), 0, ((1 : ℝ), 0, 0), 0, 100000, 100000⟩ :
        ValveBasis).scaleU =
      valveScale (valveRight ((0 : ℝ), 0, 0) ((1 : ℝ), 0, 0) ((0 : ℝ), 1, 0)
        (0, 0) (0, 0) (0, 0) ((0 : ℝ), 0, 1) 64 64) ∧
    (⟨((1 : ℝ), 0, 0), 0, ((1 : ℝ), 0, 0), 0, 100000, 100000⟩ :
        ValveBasis).scaleV =
      valveScale (valveUp2 ((0 : ℝ), 0, 0) ((1 : ℝ), 0, 0) ((0 : ℝ), 1, 0)
        (0, 0) (0, 0) (0, 0) ((0 : ℝ), 0, 1) 64 64) ∧
    0 < (⟨((1 : ℝ), 0, 0), 0, ((1 : ℝ), 0, 0), 0, 100000, 100000⟩ :
        ValveBasis).scaleU ∧
    (⟨((1 : ℝ), 0, 0), 0, ((1 : ℝ), 0, 0), 0, 100000, 100000⟩ :
        ValveBasis).scaleU ≤ 100000 ∧
    0 < (⟨((1 : ℝ), 0, 0), 0, ((1 : ℝ), 0, 0), 0, 100000, 100000⟩ :
        ValveBasis).scaleV ∧
    (⟨((1 : ℝ), 0, 0), 0, ((1 : ℝ), 0, 0), 0, 100000, 100000⟩ :
        ValveBasis).scaleV ≤ 100000 :=
  valve_scales_bounded ((0 : ℝ), 0, 0) ((1 : ℝ), 0, 0) ((0 : ℝ), 1, 0)
    (0, 0) (0, 0) (0, 0) ((0 : ℝ), 0, 1) 64 64
    ⟨((1 : ℝ), 0, 0), 0, ((1 : ℝ), 0, 0), 0, 100000, 100000⟩ valve_cc_eval

/-! ### Patch Sampler

`ExportQuakeMap.process_patch`, source lines 751-787.  The material-name
lookup and text emission are out of scope; the emitted control grid is
modelled as data. -/

/-- A SURFACE spline as the host hands it over. -/
structure Spline where
  point_count_u : ℕ
  point_count_v : ℕ
  use_cyclic_u : Bool
  use_cyclic_v : Bool
  resolution_u : ℕ
  resolution_v : ℕ
  points : List Q3

/-- Outcome of `process_patch`: the uncaught `ZeroDivisionError` of
line 765, the warned skip of lines 766-768, or the emitted grid. -/
inductive PatchOut where
  | zeroDivError
  | skipped
  | patch (rows : List (List (Q3 × (ℚ × ℚ))))

/-- `ExportQuakeMap.process_patch`, source lines 762-786.  Line 765
computes `du, dv = 1/(nu-1), -1/(nv-1)` *before* the validity check of
line 766, so a dimension of 1 raises `ZeroDivisionError` out of the
function; only then does the even/1 check run (its `nu == 1`/`nv == 1`
arms are unreachable).  The emitted grid samples control points at
`(j % wv) * wu + (i % wu)` with the UV raster `(i*du, j*dv)`. -/
def processPatch (tm : Bool) (mw : Q3 → Q3) (scale grid : ℚ) (s : Spline) :
    PatchOut :=
  let wu := s.point_count_u
  let wv := s.point_count_v
  let nu := wu + (if s.use_cyclic_u then 1 else 0)
  let nv := wv + (if s.use_cyclic_v then 1 else 0)
  if nu = 1 ∨ nv = 1 then .zeroDivError
  else
    let du : ℚ := 1 / ((nu : ℚ) - 1)
    let dv : ℚ := -(1 / ((nv : ℚ) - 1))
    if nu % 2 = 0 ∨ nv % 2 = 0 ∨ nu = 1 ∨ nv = 1 then .skipped
    else
      .patch ((List.range nu).map (fun i =>
        (List.range nv).reverse.map (fun j =>
          let index := (j % wv) * wu + (i % wu)
          let xyz := s.points.getD index (0, 0, 0)
          let xyz2 := if tm then mw xyz else xyz
          (gridsnap3 grid (smulq scale xyz2), ((i : ℚ) * du, (j : ℚ) * dv)))))

/-- Claim C8, code evaluated at the failing input: a spline with a
one-point non-wrapped v axis (a NURBS "surface curve") hits the division
`dv = -1/(nv-1)` before the validity check and raises ZeroDivisionError
instead of reporting the documented warning with zero output. -/
theorem patch_one_point_axis_raises :
    processPatch false id 1 1 ⟨4, 1, false, false, 12, 12, []⟩ =
      PatchOut.zeroDivError := rfl
